import Mathlib

/-!
# Mako hotplug governor (`arch/arm/kernel/mako_hotplug.c`)

A shallow embedding of the hot[un]plug driver.  The driver keeps one static
`struct cpu_stats`, a delayed work item that runs `decide_hotplug_func`, and an
early-suspend handler.  Everything the driver calls but does not define
(`cpu_up`, `cpu_down`, `queue_delayed_work`, `msm_cpufreq_set_freq_limits`, ...)
is recorded as a `Call` in the order in which the C code makes the calls, and
its effect on the kernel state the driver later reads back (the online mask,
the pending bit of the work item) is tracked in `State`.

Target conventions.  The file lives under `arch/arm`, a 32-bit target:
`unsigned int` and `unsigned long` are both 32 bits wide.  Hence

* `stats.timestamp[0]` holds the `s64` millisecond clock reduced modulo `2 ^ 32`;
* `struct cpu_stats` is five consecutive 32-bit words, so the word addressed by
  `stats.counter[1]` (one element past the declared array) is the word of
  `stats.timestamp[0]`.

The driver hard-codes cpu 1 as the only managed core; the machine has the two
cpus 0 and 1 (`NR_CPUS`).  `pr_info` output is not modelled.
-/

namespace MakoHotplug

/-! ## Constants -/

def DEFAULT_FIRST_LEVEL : Nat := 55

def DEFAULT_SUSPEND_FREQ : Nat := 540000

def HIGH_LOAD_COUNTER : Nat := 20

def MIN_TIME_CPU_ONLINE_MS : Nat := 1200

/-- Width of `unsigned long` on the 32-bit ARM target. -/
def BITS_PER_LONG : Nat := 32

/-- Number of cpus of the machine: cpu 0 and the managed cpu 1. -/
abbrev NR_CPUS : Nat := 2

/-- Errno value returned (negated) when the workqueue cannot be allocated. -/
def ENOMEM : Int := 12

/-- Modelled from the spec: the `unconstrained` frequency bound of section 6.  The
macro comes from `mach/cpufreq.h`, which is not among the sources; its value
plays no role in any statement below. -/
def MSM_CPUFREQ_NO_LIMIT : Nat := 0xFFFFFFFF

/-- Kernel configuration the driver is compiled against: the tick rate `HZ`
(jiffies per second) and the kernel's `msecs_to_jiffies`, neither of which is
defined in the driver. -/
structure Platform where
  HZ : Nat
  msecs_to_jiffies : Nat → Nat

/-- The driver's `#define TIMER HZ`. -/
def TIMER (p : Platform) : Nat := p.HZ

/-! ## Data model -/

/-- The driver's `struct cpu_stats`.  `counter` and `timestamp` are the single
declared elements `counter[0]` and `timestamp[0]` of the two one-element
arrays. -/
structure cpu_stats where
  default_first_level : Nat
  suspend_frequency : Nat
  cores_on_touch : Nat
  counter : Nat
  timestamp : Nat
deriving DecidableEq, Repr

/-- The kernel's online mask for the two cpus. -/
structure cpumask where
  cpu0 : Bool
  cpu1 : Bool
deriving DecidableEq, Repr

/-- A cpu number of the machine. -/
abbrev cpu_id := Fin NR_CPUS

/-- Calls the driver makes into the rest of the kernel, with their arguments. -/
inductive Call where
  | cpu_up (cpu : Nat)
  | cpu_down (cpu : Nat)
  | msm_cpufreq_set_freq_limits (cpu : Nat) (min : Nat) (max : Nat)
  | queue_delayed_work (delay : Nat)
  | cancel_delayed_work_sync
  | flush_workqueue
  | alloc_workqueue
  | register_early_suspend
deriving DecidableEq, Repr

/-- The driver's statics (`stats`, `wq`, `decide_hotplug`) together with the
kernel state it reads back.

* `wq` is true when the workqueue pointer is non-NULL;
* `decide_hotplug` is `some d` while the delayed work is queued, `d` being the
  delay in jiffies it was queued with, and `none` otherwise;
* `suspend_registered` is true once `register_early_suspend` has run. -/
structure State where
  stats : cpu_stats
  cpu_online_mask : cpumask
  wq : Bool
  decide_hotplug : Option Nat
  suspend_registered : Bool
deriving DecidableEq, Repr

/-! ## Kernel interface -/

/-- The kernel's `cpu_online(cpu)`: the bit of `cpu` in the online mask. -/
def cpu_online (m : cpumask) (cpu : cpu_id) : Bool :=
  match cpu with
  | 0 => m.cpu0
  | 1 => m.cpu1

/-- The kernel's `cpu_is_offline(cpu)`, the negation of `cpu_online(cpu)`. -/
def cpu_is_offline (m : cpumask) (cpu : cpu_id) : Bool :=
  !cpu_online m cpu

/-- Modelled from the spec: section 7 treats platform commands as unconditionally
succeeding, so `cpu_up` leaves the cpu online.  The function itself belongs to
the kernel's hotplug core. -/
def cpu_up (cpu : cpu_id) (m : cpumask) : cpumask :=
  match cpu with
  | 0 => { m with cpu0 := true }
  | 1 => { m with cpu1 := true }

/-- Modelled from the spec: section 7 treats platform commands as unconditionally
succeeding, so `cpu_down` leaves the cpu offline.  The function itself belongs
to the kernel's hotplug core. -/
def cpu_down (cpu : cpu_id) (m : cpumask) : cpumask :=
  match cpu with
  | 0 => { m with cpu0 := false }
  | 1 => { m with cpu1 := false }

/-- All cpu numbers in ascending order, the order in which the `for_each_*_cpu`
macros walk a mask. -/
def all_cpus : List cpu_id := List.finRange NR_CPUS

/-- Cpus visited by `for_each_possible_cpu`: every cpu of the machine. -/
def for_each_possible_cpu : List cpu_id := all_cpus

/-- Cpus visited by `for_each_online_cpu` when the loop body leaves the mask
alone. -/
def for_each_online_cpu (m : cpumask) : List cpu_id :=
  all_cpus.filter (cpu_online m)

/-- Modelled from the spec: section 5 describes the periodic task as single-slot.
`queue_delayed_work` arms the work item with the given delay unless it is
already pending, in which case the pending timer is left as it is.  The call
is recorded either way. -/
def queue_delayed_work (delay : Nat) (s : State) : State × List Call :=
  match s.decide_hotplug with
  | none => ({ s with decide_hotplug := some delay }, [Call.queue_delayed_work delay])
  | some _ => (s, [Call.queue_delayed_work delay])

/-- Modelled from the spec: section 4.4 has the suspend transition cancel the
pending tick synchronously; after `cancel_delayed_work_sync` the work item is
neither pending nor running. -/
def cancel_delayed_work_sync (s : State) : State × List Call :=
  ({ s with decide_hotplug := none }, [Call.cancel_delayed_work_sync])

/-! ## The driver -/

/-- Value read through `stats.counter[cpu]`.  Index 0 is the declared element;
index 1 lies one element past the array and addresses the word of
`stats.timestamp[0]`. -/
def counter_read (st : cpu_stats) (cpu : cpu_id) : Nat :=
  match cpu with
  | 0 => st.counter
  | 1 => st.timestamp

/-- Store through `stats.counter[cpu]`; see `counter_read`. -/
def counter_write (st : cpu_stats) (cpu : cpu_id) (v : Nat) : cpu_stats :=
  match cpu with
  | 0 => { st with counter := v }
  | 1 => { st with timestamp := v }

/-- New value of a counter holding `c` after one pass through the loop body of
`decide_hotplug_func`, for a sampled load `load` and threshold `level`. -/
def counter_step (level load c : Nat) : Nat :=
  if load ≥ level then
    if c < HIGH_LOAD_COUNTER then c + 1 else c
  else
    if c > 0 then c - 1 else c

/-- The body of the `for_each_online_cpu` loop of `decide_hotplug_func` for one
cpu, up to but not including `if (cpu) break;`. -/
def update_counter (load : Nat → Nat) (st : cpu_stats) (cpu : cpu_id) : cpu_stats :=
  counter_write st cpu
    (counter_step st.default_first_level (load cpu.val) (counter_read st cpu))

/-- The `for_each_online_cpu` loop of `decide_hotplug_func`, walking the cpus
in `cpus`: offline cpus are skipped, and the loop is left after the first cpu
other than cpu 0 has been handled. -/
def decide_hotplug_loop (load : Nat → Nat) (m : cpumask) :
    List cpu_id → cpu_stats → cpu_stats
  | [], st => st
  | cpu :: rest, st =>
    if cpu_online m cpu then
      if cpu.val ≠ 0 then update_counter load st cpu
      else decide_hotplug_loop load m rest (update_counter load st cpu)
    else decide_hotplug_loop load m rest st

/-- The driver's `calc_cpu_hotplug(counter0)`.  `now` is the value of
`ktime_to_ms(ktime_get())`, a non-negative `s64`; the comparison is carried out
in `s64`, the store into `timestamp[0]` truncates to `unsigned long`. -/
def calc_cpu_hotplug (now : Nat) (counter0 : Nat) (s : State) : State × List Call :=
  let online_cpu1 : Bool := decide (counter0 ≥ 10)
  if online_cpu1 then
    if cpu_is_offline s.cpu_online_mask 1 then
      ({ s with
          cpu_online_mask := cpu_up 1 s.cpu_online_mask
          stats := { s.stats with timestamp := now % 2 ^ BITS_PER_LONG } },
        [Call.cpu_up 1])
    else (s, [])
  else if cpu_online s.cpu_online_mask 1 then
    if now + MIN_TIME_CPU_ONLINE_MS > s.stats.timestamp then
      ({ s with cpu_online_mask := cpu_down 1 s.cpu_online_mask }, [Call.cpu_down 1])
    else (s, [])
  else (s, [])

/-- The work function `decide_hotplug_func`: `load` is the reading of
`report_load_at_max_freq` per cpu during this run, `now` the clock reading. -/
def decide_hotplug_func (p : Platform) (load : Nat → Nat) (now : Nat) (s : State) :
    State × List Call :=
  let st := decide_hotplug_loop load s.cpu_online_mask all_cpus s.stats
  let r1 := calc_cpu_hotplug now st.counter { s with stats := st }
  let r2 := queue_delayed_work (p.msecs_to_jiffies (TIMER p)) r1.1
  (r2.1, r1.2 ++ r2.2)

/-- The `for_each_online_cpu` loop of `mako_hotplug_early_suspend`.  The mask
is re-read at every step because the body takes cpus offline. -/
def early_suspend_loop : List cpu_id → cpumask × List Call → cpumask × List Call
  | [], acc => acc
  | cpu :: rest, (m, calls) =>
    if cpu_online m cpu then
      if cpu.val ≠ 0 then
        early_suspend_loop rest (cpu_down cpu m, calls ++ [Call.cpu_down cpu.val])
      else early_suspend_loop rest (m, calls)
    else early_suspend_loop rest (m, calls)

/-- The driver's `mako_hotplug_early_suspend`. -/
def mako_hotplug_early_suspend (s : State) : State × List Call :=
  let r1 := cancel_delayed_work_sync s
  let l := early_suspend_loop all_cpus (r1.1.cpu_online_mask, [])
  ({ r1.1 with cpu_online_mask := l.1 },
    r1.2 ++ [Call.flush_workqueue] ++ l.2 ++
      [Call.msm_cpufreq_set_freq_limits 0 MSM_CPUFREQ_NO_LIMIT s.stats.suspend_frequency])

/-- The `for_each_possible_cpu` loop of `mako_hotplug_late_resume`. -/
def late_resume_loop : List cpu_id → cpumask × List Call → cpumask × List Call
  | [], acc => acc
  | cpu :: rest, (m, calls) =>
    if cpu.val ≠ 0 then
      late_resume_loop rest (cpu_up cpu m, calls ++ [Call.cpu_up cpu.val])
    else late_resume_loop rest (m, calls)

/-- The driver's `mako_hotplug_late_resume`. -/
def mako_hotplug_late_resume (p : Platform) (s : State) : State × List Call :=
  let l := late_resume_loop for_each_possible_cpu (s.cpu_online_mask, [])
  let s1 : State :=
    { s with cpu_online_mask := l.1, stats := { s.stats with counter := 0 } }
  let r2 := queue_delayed_work p.HZ s1
  (r2.1,
    l.2 ++ [Call.msm_cpufreq_set_freq_limits 0 MSM_CPUFREQ_NO_LIMIT MSM_CPUFREQ_NO_LIMIT]
      ++ r2.2)

/-- The driver's `update_first_level`. -/
def update_first_level (level : Nat) (s : State) : State :=
  { s with stats := { s.stats with default_first_level := level } }

/-- The driver's `update_suspend_frequency`. -/
def update_suspend_frequency (freq : Nat) (s : State) : State :=
  { s with stats := { s.stats with suspend_frequency := freq } }

/-- The driver's `get_first_level`. -/
def get_first_level (s : State) : Nat := s.stats.default_first_level

/-- The driver's `get_suspend_frequency`. -/
def get_suspend_frequency (s : State) : Nat := s.stats.suspend_frequency

/-- The driver's `mako_hotplug_init`; `alloc_ok` tells whether
`alloc_workqueue` returns a non-NULL queue.  The first component is the return
value. -/
def mako_hotplug_init (p : Platform) (alloc_ok : Bool) (s : State) :
    Int × State × List Call :=
  let s1 : State :=
    { s with
        stats := { s.stats with
          default_first_level := DEFAULT_FIRST_LEVEL
          suspend_frequency := DEFAULT_SUSPEND_FREQ
          counter := 0 }
        wq := alloc_ok }
  if !alloc_ok then (-ENOMEM, s1, [Call.alloc_workqueue])
  else
    let r2 := queue_delayed_work (p.HZ * 25) { s1 with decide_hotplug := none }
    (0, { r2.1 with suspend_registered := true },
      [Call.alloc_workqueue] ++ r2.2 ++ [Call.register_early_suspend])

/-! ## Runs of the governor -/

/-- One event in the life of the running driver. -/
inductive Op where
  | tick (load : Nat → Nat) (now : Nat)
  | early_suspend
  | late_resume
  | update_first_level (level : Nat)
  | update_suspend_frequency (freq : Nat)

/-- State after one event.  A tick is the work item firing: its pending bit is
cleared and `decide_hotplug_func` runs. -/
def step (p : Platform) (s : State) : Op → State
  | Op.tick load now => (decide_hotplug_func p load now { s with decide_hotplug := none }).1
  | Op.early_suspend => (mako_hotplug_early_suspend s).1
  | Op.late_resume => (mako_hotplug_late_resume p s).1
  | Op.update_first_level v => update_first_level v s
  | Op.update_suspend_frequency v => update_suspend_frequency v s

/-- State after a sequence of events. -/
def run (p : Platform) (s : State) (ops : List Op) : State :=
  ops.foldl (step p) s

/-- Successive ticks: each element of the input gives the loads and the clock
reading of one run of the work item.  Returns the final state and, tick by
tick, the calls made. -/
def run_ticks (p : Platform) : State → List ((Nat → Nat) × Nat) → State × List (List Call)
  | s, [] => (s, [])
  | s, x :: rest =>
    let r := decide_hotplug_func p x.1 x.2 { s with decide_hotplug := none }
    let rr := run_ticks p r.1 rest
    (rr.1, r.2 :: rr.2)

/-- Recognises a frequency-limit call. -/
def freq_limit_call : Call → Bool
  | Call.msm_cpufreq_set_freq_limits _ _ _ => true
  | _ => false

/-- Recognises a call that arms the delayed work. -/
def queue_call : Call → Bool
  | Call.queue_delayed_work _ => true
  | _ => false

/-- Calls made during one event.  A tick is the work item firing; the two
setters are single assignments and call nothing. -/
def step_calls (p : Platform) (s : State) : Op → List Call
  | Op.tick load now => (decide_hotplug_func p load now { s with decide_hotplug := none }).2
  | Op.early_suspend => (mako_hotplug_early_suspend s).2
  | Op.late_resume => (mako_hotplug_late_resume p s).2
  | Op.update_first_level _ => []
  | Op.update_suspend_frequency _ => []

/-- Declared length of `stats.counter` (`unsigned int counter[1]`). -/
def COUNTER_SIZE : Nat := 1

/-- The values of `cpu`, in order, with which the loop of
`decide_hotplug_func` evaluates `stats.counter[cpu]` while walking `cpus`. -/
def decide_hotplug_indices (m : cpumask) : List cpu_id → List cpu_id
  | [] => []
  | cpu :: rest =>
    if cpu_online m cpu then
      if cpu.val ≠ 0 then [cpu]
      else cpu :: decide_hotplug_indices m rest
    else decide_hotplug_indices m rest

/-- Modelled from the spec: the kernel's `msecs_to_jiffies`, which is not among
the sources.  The spec gives the delay of the resume handler, `HZ` jiffies in
the code, as one second, so one jiffy lasts `1000 / HZ` ms; a duration of `m`
ms is rounded up to whole jiffies, as the kernel does for tick rates that
divide 1000. -/
def msecs_to_jiffies (HZ m : Nat) : Nat :=
  (m + 1000 / HZ - 1) / (1000 / HZ)

/-- A kernel with tick rate `HZ` and the conversion above. -/
def kernel_platform (HZ : Nat) : Platform := ⟨HZ, msecs_to_jiffies HZ⟩

/-! ## Sample inputs -/

/-- A kernel with `HZ = 100`, whose `msecs_to_jiffies` divides by ten. -/
def platform_hz100 : Platform := ⟨100, fun m => m / 10⟩

/-- Flat load profile: every cpu reports the same load. -/
def flat_load (l : Nat) : Nat → Nat := fun _ => l

/-- A running governor with default tunables, counter `c`, last recorded
timestamp `ts` and cpu 1 online or not; cpu 0 is online. -/
def sample_state (c ts : Nat) (cpu1 : Bool) : State :=
  { stats :=
      { default_first_level := DEFAULT_FIRST_LEVEL
        suspend_frequency := DEFAULT_SUSPEND_FREQ
        cores_on_touch := 0
        counter := c
        timestamp := ts }
    cpu_online_mask := { cpu0 := true, cpu1 := cpu1 }
    wq := true
    decide_hotplug := none
    suspend_registered := true }

/-- Load profile with load `l0` on cpu 0 and `l1` on every other cpu. -/
def load_of (l0 l1 : Nat) : Nat → Nat := fun cpu => if cpu = 0 then l0 else l1

/-! ## Basic facts about the embedding -/

theorem all_cpus_eq : all_cpus = [0, 1] := rfl

theorem counter_step_le (level load c : Nat) (h : c ≤ HIGH_LOAD_COUNTER) :
    counter_step level load c ≤ HIGH_LOAD_COUNTER := by
  unfold counter_step
  split_ifs <;> omega

theorem counter_step_le_succ (level load c : Nat) :
    counter_step level load c ≤ c + 1 := by
  unfold counter_step
  split_ifs <;> omega

/-- The sampling loop over both cpus, spelled out: cpu 0 updates `counter[0]`
when online, then cpu 1 updates the word behind `counter[1]` when online. -/
theorem decide_hotplug_loop_all (load : Nat → Nat) (m : cpumask) (st : cpu_stats) :
    decide_hotplug_loop load m all_cpus st =
      if m.cpu1 then
        update_counter load (if m.cpu0 then update_counter load st 0 else st) 1
      else if m.cpu0 then update_counter load st 0 else st := by
  rw [all_cpus_eq]
  cases h0 : m.cpu0 <;> cases h1 : m.cpu1 <;>
    simp [decide_hotplug_loop, cpu_online, h0, h1]

theorem update_counter_zero_counter (load : Nat → Nat) (st : cpu_stats) :
    (update_counter load st 0).counter =
      counter_step st.default_first_level (load 0) st.counter := rfl

theorem update_counter_one_counter (load : Nat → Nat) (st : cpu_stats) :
    (update_counter load st 1).counter = st.counter := rfl

theorem update_counter_one_timestamp (load : Nat → Nat) (st : cpu_stats) :
    (update_counter load st 1).timestamp =
      counter_step st.default_first_level (load 1) st.timestamp := rfl

theorem update_counter_zero_timestamp (load : Nat → Nat) (st : cpu_stats) :
    (update_counter load st 0).timestamp = st.timestamp := rfl

theorem update_counter_level (load : Nat → Nat) (st : cpu_stats) (cpu : cpu_id) :
    (update_counter load st cpu).default_first_level = st.default_first_level := by
  fin_cases cpu <;> rfl

/-- The counter handed to `calc_cpu_hotplug` by a tick. -/
theorem decide_hotplug_loop_counter (load : Nat → Nat) (m : cpumask) (st : cpu_stats) :
    (decide_hotplug_loop load m all_cpus st).counter =
      if m.cpu0 then counter_step st.default_first_level (load 0) st.counter
      else st.counter := by
  rw [decide_hotplug_loop_all]
  cases m.cpu0 <;> cases m.cpu1 <;>
    simp [update_counter_zero_counter, update_counter_one_counter]

theorem cpu_online_one (m : cpumask) : cpu_online m 1 = m.cpu1 := rfl

theorem cpu_online_zero (m : cpumask) : cpu_online m 0 = m.cpu0 := rfl

/-- The four outcomes of `calc_cpu_hotplug`, by counter, state of cpu 1 and
residency comparison. -/
theorem calc_cpu_hotplug_eq (now c : Nat) (s : State) :
    calc_cpu_hotplug now c s =
      if 10 ≤ c then
        if s.cpu_online_mask.cpu1 = false then
          ({ s with
              cpu_online_mask := cpu_up 1 s.cpu_online_mask
              stats := { s.stats with timestamp := now % 2 ^ BITS_PER_LONG } },
            [Call.cpu_up 1])
        else (s, [])
      else if s.cpu_online_mask.cpu1 = true ∧ s.stats.timestamp < now + MIN_TIME_CPU_ONLINE_MS then
        ({ s with cpu_online_mask := cpu_down 1 s.cpu_online_mask }, [Call.cpu_down 1])
      else (s, []) := by
  unfold calc_cpu_hotplug
  cases h1 : s.cpu_online_mask.cpu1 <;>
    by_cases hc : 10 ≤ c <;>
    by_cases hg : s.stats.timestamp < now + MIN_TIME_CPU_ONLINE_MS <;>
    simp [cpu_is_offline, cpu_online_one, h1, hc, hg]

theorem calc_cpu_hotplug_counter (now c : Nat) (s : State) :
    (calc_cpu_hotplug now c s).1.stats.counter = s.stats.counter := by
  rw [calc_cpu_hotplug_eq]
  split_ifs <;> rfl

theorem queue_delayed_work_stats (d : Nat) (s : State) :
    (queue_delayed_work d s).1.stats = s.stats := by
  unfold queue_delayed_work
  split <;> rfl

theorem queue_delayed_work_mask (d : Nat) (s : State) :
    (queue_delayed_work d s).1.cpu_online_mask = s.cpu_online_mask := by
  unfold queue_delayed_work
  split <;> rfl

theorem queue_delayed_work_calls (d : Nat) (s : State) :
    (queue_delayed_work d s).2 = [Call.queue_delayed_work d] := by
  unfold queue_delayed_work
  split <;> rfl

/-- The counter stored after a tick is the one the loop computed. -/
theorem decide_hotplug_func_counter (p : Platform) (load : Nat → Nat) (now : Nat)
    (s : State) :
    (decide_hotplug_func p load now s).1.stats.counter =
      (decide_hotplug_loop load s.cpu_online_mask all_cpus s.stats).counter := by
  simp only [decide_hotplug_func, queue_delayed_work_stats, calc_cpu_hotplug_counter]

theorem step_counter_le (p : Platform) (s : State) (op : Op)
    (h : s.stats.counter ≤ HIGH_LOAD_COUNTER) :
    (step p s op).stats.counter ≤ HIGH_LOAD_COUNTER := by
  cases op with
  | tick load now =>
    simp only [step, decide_hotplug_func_counter, decide_hotplug_loop_counter]
    split_ifs
    · exact counter_step_le _ _ _ h
    · exact h
  | early_suspend => exact h
  | late_resume =>
    simp only [step, mako_hotplug_late_resume, queue_delayed_work_stats]
    exact Nat.zero_le _
  | update_first_level v => exact h
  | update_suspend_frequency v => exact h

theorem run_counter_le (p : Platform) (ops : List Op) :
    ∀ s : State, s.stats.counter ≤ HIGH_LOAD_COUNTER →
      (run p s ops).stats.counter ≤ HIGH_LOAD_COUNTER := by
  induction ops with
  | nil => intro s h; exact h
  | cons op rest ih =>
    intro s h
    exact ih (step p s op) (step_counter_le p s op h)

theorem mako_hotplug_init_counter (p : Platform) (alloc_ok : Bool) (s : State) :
    (mako_hotplug_init p alloc_ok s).2.1.stats.counter = 0 := by
  cases alloc_ok <;> simp [mako_hotplug_init, queue_delayed_work_stats]

theorem decide_hotplug_loop_timestamp_le (load : Nat → Nat) (m : cpumask)
    (st : cpu_stats) :
    (decide_hotplug_loop load m all_cpus st).timestamp ≤ st.timestamp + 1 := by
  rw [decide_hotplug_loop_all]
  cases m.cpu0 <;> cases m.cpu1 <;>
    simp [update_counter_one_timestamp, update_counter_zero_timestamp,
      counter_step_le_succ]

/-- Calls made by a tick: those of the decision, then the re-arm. -/
theorem decide_hotplug_func_calls (p : Platform) (load : Nat → Nat) (now : Nat)
    (s : State) :
    (decide_hotplug_func p load now s).2 =
      (calc_cpu_hotplug now
          (decide_hotplug_loop load s.cpu_online_mask all_cpus s.stats).counter
          { s with stats := decide_hotplug_loop load s.cpu_online_mask all_cpus s.stats }).2
        ++ [Call.queue_delayed_work (p.msecs_to_jiffies (TIMER p))] := by
  simp only [decide_hotplug_func, queue_delayed_work_calls]

theorem counter_step_le_max (level load c : Nat) :
    counter_step level load c ≤ max c HIGH_LOAD_COUNTER := by
  unfold counter_step HIGH_LOAD_COUNTER
  split_ifs <;> omega

theorem decide_hotplug_loop_timestamp_le_max (load : Nat → Nat) (m : cpumask)
    (st : cpu_stats) :
    (decide_hotplug_loop load m all_cpus st).timestamp ≤ max st.timestamp HIGH_LOAD_COUNTER := by
  rw [decide_hotplug_loop_all]
  cases m.cpu0 <;> cases m.cpu1 <;>
    simp only [update_counter_one_timestamp, update_counter_zero_timestamp, if_true,
      if_false, Bool.false_eq_true] <;>
    first
      | exact counter_step_le_max _ _ _
      | exact le_max_left _ _

/-- Calls made by the decision alone. -/
theorem calc_cpu_hotplug_calls (now c : Nat) (s : State) :
    (calc_cpu_hotplug now c s).2 =
      if 10 ≤ c then
        if s.cpu_online_mask.cpu1 = false then [Call.cpu_up 1] else []
      else if s.cpu_online_mask.cpu1 = true ∧
          s.stats.timestamp < now + MIN_TIME_CPU_ONLINE_MS then [Call.cpu_down 1]
      else [] := by
  rw [calc_cpu_hotplug_eq]
  split_ifs <;> rfl

/-- A tick that finds cpu 0 online, cpu 1 offline and cpu 0 loaded, while the
counter stays below 10: only the re-arm is issued. -/
theorem tick_offline_loaded_below (p : Platform) (load : Nat → Nat) (now : Nat) (s : State)
    (h0 : s.cpu_online_mask.cpu0 = true) (h1 : s.cpu_online_mask.cpu1 = false)
    (hl : s.stats.default_first_level ≤ load 0) (hc : s.stats.counter + 1 < 10) :
    (decide_hotplug_func p load now { s with decide_hotplug := none }).2
        = [Call.queue_delayed_work (p.msecs_to_jiffies (TIMER p))] ∧
    (decide_hotplug_func p load now { s with decide_hotplug := none }).1.stats.counter
        = s.stats.counter + 1 ∧
    (decide_hotplug_func p load now { s with decide_hotplug := none }).1.cpu_online_mask
        = s.cpu_online_mask ∧
    (decide_hotplug_func p load now
        { s with decide_hotplug := none }).1.stats.default_first_level
        = s.stats.default_first_level := by
  have hlt : s.stats.counter < HIGH_LOAD_COUNTER := by
    unfold HIGH_LOAD_COUNTER; omega
  have hcnt : (decide_hotplug_loop load s.cpu_online_mask all_cpus s.stats).counter
      = s.stats.counter + 1 := by
    rw [decide_hotplug_loop_counter, if_pos h0]
    unfold counter_step
    rw [if_pos hl, if_pos hlt]
  have hlvl : (decide_hotplug_loop load s.cpu_online_mask all_cpus s.stats).default_first_level
      = s.stats.default_first_level := by
    rw [decide_hotplug_loop_all, h0, h1]
    exact update_counter_level load s.stats 0
  refine ⟨?_, ?_, ?_, ?_⟩
  · rw [decide_hotplug_func_calls]
    simp only [hcnt]
    rw [calc_cpu_hotplug_calls, if_neg (by omega)]
    simp [h1]
  · rw [decide_hotplug_func_counter]
    exact hcnt
  · simp only [decide_hotplug_func, queue_delayed_work_mask, hcnt]
    rw [calc_cpu_hotplug_eq, if_neg (by omega)]
    simp [h1]
  · simp only [decide_hotplug_func, queue_delayed_work_stats, hcnt]
    rw [calc_cpu_hotplug_eq, if_neg (by omega)]
    simp only [h1, Bool.false_eq_true, false_and, if_false]
    exact hlvl

/-- A tick that finds cpu 0 online, cpu 1 offline and cpu 0 loaded, with the
counter at 9: the counter reaches 10 and `cpu_up(1)` is issued. -/
theorem tick_offline_loaded_reach (p : Platform) (load : Nat → Nat) (now : Nat) (s : State)
    (h0 : s.cpu_online_mask.cpu0 = true) (h1 : s.cpu_online_mask.cpu1 = false)
    (hl : s.stats.default_first_level ≤ load 0) (hc : s.stats.counter + 1 = 10) :
    (decide_hotplug_func p load now { s with decide_hotplug := none }).2
        = [Call.cpu_up 1, Call.queue_delayed_work (p.msecs_to_jiffies (TIMER p))] ∧
    (decide_hotplug_func p load now { s with decide_hotplug := none }).1.stats.counter
        = 10 := by
  have hlt : s.stats.counter < HIGH_LOAD_COUNTER := by
    unfold HIGH_LOAD_COUNTER; omega
  have hcnt : (decide_hotplug_loop load s.cpu_online_mask all_cpus s.stats).counter
      = 10 := by
    rw [decide_hotplug_loop_counter, if_pos h0]
    unfold counter_step
    rw [if_pos hl, if_pos hlt]
    exact hc
  refine ⟨?_, ?_⟩
  · rw [decide_hotplug_func_calls]
    simp only [hcnt]
    rw [calc_cpu_hotplug_calls, if_pos (le_refl 10)]
    simp [h1]
  · rw [decide_hotplug_func_counter]
    exact hcnt

/-- Ticks under sustained load on cpu 0, from a counter `n + 1` short of 10
with cpu 1 offline: `n` ticks that only re-arm, then the tick that issues
`cpu_up(1)`. -/
theorem run_ticks_loaded (p : Platform) (n : Nat) :
    ∀ (s : State) (inputs : List ((Nat → Nat) × Nat)),
      inputs.length = n + 1 → s.stats.counter + (n + 1) = 10 →
      s.cpu_online_mask.cpu0 = true → s.cpu_online_mask.cpu1 = false →
      (∀ x ∈ inputs, s.stats.default_first_level ≤ x.1 0) →
      (run_ticks p s inputs).1.stats.counter = 10 ∧
      (run_ticks p s inputs).2 =
        List.replicate n [Call.queue_delayed_work (p.msecs_to_jiffies (TIMER p))] ++
          [[Call.cpu_up 1, Call.queue_delayed_work (p.msecs_to_jiffies (TIMER p))]] := by
  induction n with
  | zero =>
    intro s inputs hlen hc h0 h1 hl
    match inputs, hlen with
    | [x], _ =>
      have hx := hl x (List.mem_singleton_self x)
      have key := tick_offline_loaded_reach p x.1 x.2 s h0 h1 hx (by omega)
      simp only [run_ticks, List.replicate, List.nil_append]
      exact ⟨key.2, by rw [key.1]⟩
  | succ k ih =>
    intro s inputs hlen hc h0 h1 hl
    match inputs, hlen with
    | x :: rest, hlen =>
      have hx := hl x (List.mem_cons_self x rest)
      have key := tick_offline_loaded_below p x.1 x.2 s h0 h1 hx (by omega)
      obtain ⟨kcalls, kcnt, kmask, klvl⟩ := key
      have hrest := ih (decide_hotplug_func p x.1 x.2 { s with decide_hotplug := none }).1 rest
        (by simpa using hlen) (by rw [kcnt]; omega) (by rw [kmask]; exact h0)
        (by rw [kmask]; exact h1)
        (by intro y hy; rw [klvl]; exact hl y (List.mem_cons_of_mem x hy))
      simp only [run_ticks, List.replicate_succ, List.cons_append]
      exact ⟨hrest.1, by rw [kcalls, hrest.2]⟩

/-! ## Claims -/

/-- C1. Saturation invariant: in every state reached from `mako_hotplug_init`
(whether or not the workqueue allocation succeeded, from any prior kernel
state) by any sequence of ticks with arbitrary loads and clock readings,
suspends, resumes and tunable updates, `stats.counter[0]` lies in `[0, 20]`. -/
theorem counter_saturation_invariant (p : Platform) (alloc_ok : Bool) (s0 : State)
    (ops : List Op) :
    0 ≤ (run p (mako_hotplug_init p alloc_ok s0).2.1 ops).stats.counter ∧
      (run p (mako_hotplug_init p alloc_ok s0).2.1 ops).stats.counter ≤ 20 := by
  refine ⟨Nat.zero_le _, ?_⟩
  apply run_counter_le p ops
  rw [mako_hotplug_init_counter]
  exact Nat.zero_le _

/-- C2. Hysteresis step: for a counter `c` in `[0, 20]`, threshold `t` and
sampled load `l`, the loop body yields `min (c + 1) 20` when `l ≥ t` and
`max (c - 1) 0` when `l < t`; and one whole tick with cpu 0 online does exactly
this to `stats.counter[0]`, with cpu 0's load as the sample. -/
theorem hysteresis_step (p : Platform) (load : Nat → Nat) (now : Nat) (s : State)
    (hc : s.stats.counter ≤ 20) (h0 : cpu_online s.cpu_online_mask 0 = true) :
    (∀ t l c : Nat, c ≤ 20 →
        (t ≤ l → counter_step t l c = min (c + 1) 20) ∧
        (l < t → (counter_step t l c : Int) = max ((c : Int) - 1) 0)) ∧
    (s.stats.default_first_level ≤ load 0 →
        (decide_hotplug_func p load now s).1.stats.counter = min (s.stats.counter + 1) 20) ∧
    (load 0 < s.stats.default_first_level →
        ((decide_hotplug_func p load now s).1.stats.counter : Int) =
          max ((s.stats.counter : Int) - 1) 0) := by
  have key : ∀ t l c : Nat, c ≤ 20 →
      (t ≤ l → counter_step t l c = min (c + 1) 20) ∧
      (l < t → (counter_step t l c : Int) = max ((c : Int) - 1) 0) := by
    intro t l c hc
    constructor
    · intro h
      unfold counter_step HIGH_LOAD_COUNTER
      rw [if_pos h]
      split_ifs <;> omega
    · intro h
      unfold counter_step
      rw [if_neg (by omega)]
      split_ifs <;> omega
  have h0' : s.cpu_online_mask.cpu0 = true := h0
  refine ⟨key, ?_, ?_⟩
  · intro h
    rw [decide_hotplug_func_counter, decide_hotplug_loop_counter, if_pos h0']
    exact (key _ _ _ hc).1 h
  · intro h
    rw [decide_hotplug_func_counter, decide_hotplug_loop_counter, if_pos h0']
    exact (key _ _ _ hc).2 h

/-- Witness for C2: a saturated counter stays at 20 under a load of 60 against
the default threshold 55. -/
theorem hysteresis_step_witness :
    (decide_hotplug_func platform_hz100 (flat_load 60) 0
        (sample_state 20 0 false)).1.stats.counter = 20 :=
  (hysteresis_step platform_hz100 (flat_load 60) 0 (sample_state 20 0 false)
    (by decide) rfl).2.1 (by decide)

/-- C3, as stated, fails: with the clock at `2 ^ 32` ms, cpu 1 offline and a
counter of 10, the decision issues `cpu_up(1)` but `stats.timestamp[0]`, an
`unsigned long`, ends up holding 0 rather than the current time. -/
theorem online_timestamp_counterexample :
    cpu_is_offline (sample_state 10 7 false).cpu_online_mask 1 = true ∧
    (calc_cpu_hotplug 4294967296 10 (sample_state 10 7 false)).2 = [Call.cpu_up 1] ∧
    (calc_cpu_hotplug 4294967296 10 (sample_state 10 7 false)).1.stats.timestamp = 0 ∧
    (calc_cpu_hotplug 4294967296 10 (sample_state 10 7 false)).1.stats.timestamp
      ≠ 4294967296 := by
  decide

/-- C3, amended. For every counter `c ≥ 10` and every state in which cpu 1 is
offline, `calc_cpu_hotplug c` issues exactly the call `cpu_up(1)` and stores
the current time reduced modulo `2 ^ 32` in `stats.timestamp[0]`, which is the
current time itself whenever that is below `2 ^ 32` ms; for every `c < 10`, in
any state, it issues no `cpu_up`. -/
theorem online_decision (now c : Nat) (s : State) :
    (10 ≤ c → cpu_is_offline s.cpu_online_mask 1 = true →
        (calc_cpu_hotplug now c s).2 = [Call.cpu_up 1] ∧
        (calc_cpu_hotplug now c s).1.stats.timestamp = now % 2 ^ 32 ∧
        (now < 2 ^ 32 → (calc_cpu_hotplug now c s).1.stats.timestamp = now)) ∧
    (c < 10 → ∀ cpu : Nat, Call.cpu_up cpu ∉ (calc_cpu_hotplug now c s).2) := by
  constructor
  · intro hc hoff
    have h1 : s.cpu_online_mask.cpu1 = false := by
      simpa [cpu_is_offline, cpu_online_one] using hoff
    rw [calc_cpu_hotplug_eq, if_pos hc, if_pos h1]
    refine ⟨rfl, rfl, ?_⟩
    intro hnow
    exact Nat.mod_eq_of_lt hnow
  · intro hc cpu
    rw [calc_cpu_hotplug_eq, if_neg (by omega)]
    split_ifs <;> simp

/-- Witness for the amended C3: at time 5000 a counter of 10 onlines cpu 1 and
records 5000; a counter of 9 issues no `cpu_up(1)`. -/
theorem online_decision_witness :
    ((calc_cpu_hotplug 5000 10 (sample_state 10 7 false)).2 = [Call.cpu_up 1] ∧
      (calc_cpu_hotplug 5000 10 (sample_state 10 7 false)).1.stats.timestamp = 5000) ∧
    Call.cpu_up 1 ∉ (calc_cpu_hotplug 5000 9 (sample_state 9 7 false)).2 :=
  ⟨⟨((online_decision 5000 10 (sample_state 10 7 false)).1 (by decide) rfl).1,
      ((online_decision 5000 10 (sample_state 10 7 false)).1 (by decide) rfl).2.2
        (by decide)⟩,
    (online_decision 5000 9 (sample_state 9 7 false)).2 (by decide) 1⟩

/-- C4, the code at the failing input. A tick at time 5000 brings cpu 1 online
and records the timestamp 5000; the tick that follows at time 6000, only
1000 ms later, samples no load and issues `cpu_down(1)`.  The decision alone,
for a core onlined at 5000 and asked at 6000 with counter 9, does the same. -/
theorem min_residency_failing_run :
    (decide_hotplug_func platform_hz100 (flat_load 60) 5000 (sample_state 9 0 false)).2
        = [Call.cpu_up 1, Call.queue_delayed_work 10] ∧
    (decide_hotplug_func platform_hz100 (flat_load 60) 5000
        (sample_state 9 0 false)).1.stats.timestamp = 5000 ∧
    (6000 : Int) - 5000 < 1200 ∧
    Call.cpu_down 1 ∈
      (decide_hotplug_func platform_hz100 (flat_load 0) 6000
        { (decide_hotplug_func platform_hz100 (flat_load 60) 5000
            (sample_state 9 0 false)).1 with decide_hotplug := none }).2 ∧
    (calc_cpu_hotplug 6000 9 (sample_state 9 5000 true)).2 = [Call.cpu_down 1] := by
  decide

/-- C5. Offline after residency: in a tick that finds cpu 1 online, with at
least 1200 ms elapsed since `stats.timestamp[0]` and a counter below 10 handed
to the decision, the calls made are `cpu_down(1)` followed by the re-arm. -/
theorem offline_after_residency (p : Platform) (load : Nat → Nat) (now : Nat)
    (s : State)
    (h1 : cpu_online s.cpu_online_mask 1 = true)
    (ht : s.stats.timestamp + MIN_TIME_CPU_ONLINE_MS ≤ now)
    (hc : (decide_hotplug_loop load s.cpu_online_mask all_cpus s.stats).counter < 10) :
    (decide_hotplug_func p load now s).2 =
      [Call.cpu_down 1, Call.queue_delayed_work (p.msecs_to_jiffies (TIMER p))] := by
  have h1' : s.cpu_online_mask.cpu1 = true := h1
  have hts := decide_hotplug_loop_timestamp_le load s.cpu_online_mask s.stats
  have hm : 0 < MIN_TIME_CPU_ONLINE_MS := by decide
  rw [decide_hotplug_func_calls, calc_cpu_hotplug_eq, if_neg (by omega)]
  have hg : (decide_hotplug_loop load s.cpu_online_mask all_cpus s.stats).timestamp
      < now + MIN_TIME_CPU_ONLINE_MS := by omega
  rw [if_pos ⟨h1', hg⟩]
  rfl

/-- Witness for C5: cpu 1 online since time 5000, asked at time 6200 with a
counter falling from 10 to 9. -/
theorem offline_after_residency_witness :
    (decide_hotplug_func platform_hz100 (flat_load 0) 6200 (sample_state 10 5000 true)).2 =
      [Call.cpu_down 1, Call.queue_delayed_work 10] :=
  offline_after_residency platform_hz100 (flat_load 0) 6200 (sample_state 10 5000 true)
    rfl (by decide) (by decide)

/-- C6, as stated, fails: two ticks from the same state with the same load on
cpu 1, differing only in the load sampled for cpu 0, hand different counters
to the decision and issue different hotplug calls, both with cpu 1 offline
(10 and `cpu_up(1)` against 8 and nothing) and with cpu 1 online (11 and
nothing against 9 and `cpu_down(1)`). -/
theorem core0_load_counterexample :
    load_of 60 30 1 = load_of 0 30 1 ∧
    (decide_hotplug_loop (load_of 60 30) (sample_state 9 0 false).cpu_online_mask all_cpus
        (sample_state 9 0 false).stats).counter = 10 ∧
    (decide_hotplug_loop (load_of 0 30) (sample_state 9 0 false).cpu_online_mask all_cpus
        (sample_state 9 0 false).stats).counter = 8 ∧
    (decide_hotplug_func platform_hz100 (load_of 60 30) 5000 (sample_state 9 0 false)).2
        = [Call.cpu_up 1, Call.queue_delayed_work 10] ∧
    (decide_hotplug_func platform_hz100 (load_of 0 30) 5000 (sample_state 9 0 false)).2
        = [Call.queue_delayed_work 10] ∧
    (decide_hotplug_func platform_hz100 (load_of 60 30) 5000 (sample_state 10 0 true)).2
        = [Call.queue_delayed_work 10] ∧
    (decide_hotplug_func platform_hz100 (load_of 0 30) 5000 (sample_state 10 0 true)).2
        = [Call.cpu_down 1, Call.queue_delayed_work 10] := by
  decide

/-- C6, amended. Only cpu 0's load feeds the decision: two ticks from the same
state at the same time with the same load sample for cpu 0, differing only in
the load sampled for cpu 1, hand the same counter to `calc_cpu_hotplug` and
leave the same `stats.counter[0]`; and they issue the same calls whenever
`stats.timestamp[0]` is less than 1200 ms ahead of the clock. -/
theorem decision_fed_by_core0 (p : Platform) (la lb : Nat → Nat) (now : Nat) (s : State)
    (h : la 0 = lb 0) :
    (decide_hotplug_loop la s.cpu_online_mask all_cpus s.stats).counter =
      (decide_hotplug_loop lb s.cpu_online_mask all_cpus s.stats).counter ∧
    (decide_hotplug_func p la now s).1.stats.counter =
      (decide_hotplug_func p lb now s).1.stats.counter ∧
    (s.stats.timestamp < now + MIN_TIME_CPU_ONLINE_MS →
      (decide_hotplug_func p la now s).2 = (decide_hotplug_func p lb now s).2) := by
  have hcnt : (decide_hotplug_loop la s.cpu_online_mask all_cpus s.stats).counter =
      (decide_hotplug_loop lb s.cpu_online_mask all_cpus s.stats).counter := by
    rw [decide_hotplug_loop_counter, decide_hotplug_loop_counter, h]
  refine ⟨hcnt, ?_, ?_⟩
  · rw [decide_hotplug_func_counter, decide_hotplug_func_counter, hcnt]
  · intro hts
    have ha := decide_hotplug_loop_timestamp_le_max la s.cpu_online_mask s.stats
    have hb := decide_hotplug_loop_timestamp_le_max lb s.cpu_online_mask s.stats
    have hm : HIGH_LOAD_COUNTER < MIN_TIME_CPU_ONLINE_MS := by decide
    have ga : (decide_hotplug_loop la s.cpu_online_mask all_cpus s.stats).timestamp
        < now + MIN_TIME_CPU_ONLINE_MS := by omega
    have gb : (decide_hotplug_loop lb s.cpu_online_mask all_cpus s.stats).timestamp
        < now + MIN_TIME_CPU_ONLINE_MS := by omega
    rw [decide_hotplug_func_calls, decide_hotplug_func_calls, calc_cpu_hotplug_calls,
      calc_cpu_hotplug_calls, hcnt]
    simp only [ga, gb]

/-- Witness for the amended C6: with cpu 1 online, loads 60 and 0 on cpu 1
against the same load 0 on cpu 0 give the same calls. -/
theorem decision_fed_by_core0_witness :
    (decide_hotplug_func platform_hz100 (load_of 0 60) 5000 (sample_state 10 0 true)).2 =
      (decide_hotplug_func platform_hz100 (load_of 0 0) 5000 (sample_state 10 0 true)).2 :=
  (decision_fed_by_core0 platform_hz100 (load_of 0 60) (load_of 0 0) 5000
    (sample_state 10 0 true) rfl).2.2 (by decide)

/-- C7, as stated, fails: from the initial state (counter 0, cpu 1 offline,
threshold 55), ten ticks during which cpu 1 reports a load of 60 and cpu 0 a
load of 0 leave the counter at 0, and no tick issues `cpu_up(1)`. -/
theorem onlining_scenario_counterexample :
    (∀ x ∈ List.replicate 10 (load_of 0 60, 26000), 55 ≤ (x : (Nat → Nat) × Nat).1 1) ∧
    (run_ticks platform_hz100 (sample_state 0 0 false)
        (List.replicate 10 (load_of 0 60, 26000))).1.stats.counter = 0 ∧
    (run_ticks platform_hz100 (sample_state 0 0 false)
        (List.replicate 10 (load_of 0 60, 26000))).2
      = List.replicate 10 [Call.queue_delayed_work 10] := by
  refine ⟨?_, by decide, by decide⟩
  intro x hx
  rw [List.eq_of_mem_replicate hx]
  decide

/-- C7, amended. From a state with counter 0, cpu 0 online and cpu 1 offline,
with threshold `t`, if the load samples for cpu 0 on ten consecutive ticks are
all at least `t`, whatever the clock readings, the counter is 10 after the
tenth tick, the first nine ticks issue nothing but the re-arm, and the tenth
issues `cpu_up(1)` before re-arming. -/
theorem onlining_scenario (p : Platform) (s : State) (inputs : List ((Nat → Nat) × Nat))
    (hc : s.stats.counter = 0)
    (h0 : cpu_online s.cpu_online_mask 0 = true)
    (h1 : cpu_is_offline s.cpu_online_mask 1 = true)
    (hlen : inputs.length = 10)
    (hl : ∀ x ∈ inputs, s.stats.default_first_level ≤ x.1 0) :
    (run_ticks p s inputs).1.stats.counter = 10 ∧
    (run_ticks p s inputs).2 =
      List.replicate 9 [Call.queue_delayed_work (p.msecs_to_jiffies (TIMER p))] ++
        [[Call.cpu_up 1, Call.queue_delayed_work (p.msecs_to_jiffies (TIMER p))]] := by
  have h1' : s.cpu_online_mask.cpu1 = false := by
    simpa [cpu_is_offline, cpu_online_one] using h1
  exact run_ticks_loaded p 9 s inputs hlen (by omega) h0 h1' hl

/-- Witness for the amended C7: threshold 55 and ten samples of 60 on every
cpu. -/
theorem onlining_scenario_witness :
    (run_ticks platform_hz100 (sample_state 0 0 false)
        (List.replicate 10 (flat_load 60, 26000))).1.stats.counter = 10 ∧
    (run_ticks platform_hz100 (sample_state 0 0 false)
        (List.replicate 10 (flat_load 60, 26000))).2 =
      List.replicate 9 [Call.queue_delayed_work 10] ++
        [[Call.cpu_up 1, Call.queue_delayed_work 10]] :=
  onlining_scenario platform_hz100 (sample_state 0 0 false)
    (List.replicate 10 (flat_load 60, 26000)) rfl rfl rfl (by decide)
    (by intro x hx; rw [List.eq_of_mem_replicate hx]; decide)

/-- C8. Suspend postcondition: in every state, `mako_hotplug_early_suspend`
leaves no tick pending; its calls are the cancel and the flush, then
`cpu_down(c)` for every online cpu `c` other than 0, in ascending order, then one
`msm_cpufreq_set_freq_limits(0, MSM_CPUFREQ_NO_LIMIT, stats.suspend_frequency)`;
in particular every online cpu other than 0 is taken down and ends up offline,
and that frequency-limit call is the only one.  Neither the counter nor the
timestamp enters the result. -/
theorem early_suspend_postcondition (s : State) :
    (mako_hotplug_early_suspend s).1.decide_hotplug = none ∧
    (mako_hotplug_early_suspend s).2 =
      [Call.cancel_delayed_work_sync, Call.flush_workqueue] ++
        ((for_each_online_cpu s.cpu_online_mask).filter (fun c => decide (c.val ≠ 0))).map
          (fun c => Call.cpu_down c.val) ++
        [Call.msm_cpufreq_set_freq_limits 0 MSM_CPUFREQ_NO_LIMIT s.stats.suspend_frequency] ∧
    (∀ c : cpu_id, c ≠ 0 → cpu_online s.cpu_online_mask c = true →
      Call.cpu_down c.val ∈ (mako_hotplug_early_suspend s).2 ∧
      cpu_online (mako_hotplug_early_suspend s).1.cpu_online_mask c = false) ∧
    (mako_hotplug_early_suspend s).2.filter freq_limit_call =
      [Call.msm_cpufreq_set_freq_limits 0 MSM_CPUFREQ_NO_LIMIT s.stats.suspend_frequency] ∧
    (∀ c ts : Nat,
      mako_hotplug_early_suspend
          { s with stats := { s.stats with counter := c, timestamp := ts } } =
        ({ (mako_hotplug_early_suspend s).1 with
            stats := { s.stats with counter := c, timestamp := ts } },
          (mako_hotplug_early_suspend s).2)) := by
  obtain ⟨st, ⟨c0, c1⟩, wq, pending, reg⟩ := s
  refine ⟨rfl, ?_, ?_, ?_, ?_⟩
  · cases c0 <;> cases c1 <;> rfl
  · intro c hc hon
    fin_cases c
    · exact absurd rfl hc
    · have h1 : c1 = true := hon
      subst h1
      cases c0 <;>
        exact ⟨by simp [mako_hotplug_early_suspend, cancel_delayed_work_sync,
          early_suspend_loop, all_cpus_eq, cpu_online, cpu_down], rfl⟩
  · cases c0 <;> cases c1 <;> rfl
  · intro c ts
    cases c0 <;> cases c1 <;> rfl

/-- Witness for C8: suspending with cpu 1 online, a counter of 15 and a fresh
timestamp takes cpu 1 down and caps cpu 0 at the default 540000. -/
theorem early_suspend_postcondition_witness :
    (mako_hotplug_early_suspend (sample_state 15 5000 true)).2 =
      [Call.cancel_delayed_work_sync, Call.flush_workqueue, Call.cpu_down 1,
        Call.msm_cpufreq_set_freq_limits 0 MSM_CPUFREQ_NO_LIMIT 540000] ∧
    Call.cpu_down 1 ∈ (mako_hotplug_early_suspend (sample_state 15 5000 true)).2 :=
  ⟨(early_suspend_postcondition (sample_state 15 5000 true)).2.1,
    ((early_suspend_postcondition (sample_state 15 5000 true)).2.2.1 1 (by decide) rfl).1⟩

/-- C9. Resume postcondition: in every state, the calls of
`mako_hotplug_late_resume` are `cpu_up(c)` for every possible cpu `c` other
than 0, then `msm_cpufreq_set_freq_limits(0, MSM_CPUFREQ_NO_LIMIT,
MSM_CPUFREQ_NO_LIMIT)`, then `queue_delayed_work` with a delay of `HZ` jiffies;
afterwards `stats.counter[0]` is 0, every cpu other than 0 is online, and the
work item is pending, with the delay `HZ` when it was not pending before. -/
theorem late_resume_postcondition (p : Platform) (s : State) :
    (mako_hotplug_late_resume p s).2 =
      (for_each_possible_cpu.filter (fun c => decide (c.val ≠ 0))).map
          (fun c => Call.cpu_up c.val) ++
        [Call.msm_cpufreq_set_freq_limits 0 MSM_CPUFREQ_NO_LIMIT MSM_CPUFREQ_NO_LIMIT,
          Call.queue_delayed_work p.HZ] ∧
    (∀ c : cpu_id, c ≠ 0 →
      Call.cpu_up c.val ∈ (mako_hotplug_late_resume p s).2 ∧
      cpu_online (mako_hotplug_late_resume p s).1.cpu_online_mask c = true) ∧
    (mako_hotplug_late_resume p s).1.stats.counter = 0 ∧
    (mako_hotplug_late_resume p s).2.filter freq_limit_call =
      [Call.msm_cpufreq_set_freq_limits 0 MSM_CPUFREQ_NO_LIMIT MSM_CPUFREQ_NO_LIMIT] ∧
    (mako_hotplug_late_resume p s).1.decide_hotplug.isSome = true ∧
    (s.decide_hotplug = none →
      (mako_hotplug_late_resume p s).1.decide_hotplug = some p.HZ) := by
  have hcalls : (mako_hotplug_late_resume p s).2 =
      [Call.cpu_up 1,
        Call.msm_cpufreq_set_freq_limits 0 MSM_CPUFREQ_NO_LIMIT MSM_CPUFREQ_NO_LIMIT,
        Call.queue_delayed_work p.HZ] := by
    simp only [mako_hotplug_late_resume, queue_delayed_work_calls]
    rfl
  have hmask : (mako_hotplug_late_resume p s).1.cpu_online_mask.cpu1 = true := by
    simp only [mako_hotplug_late_resume, queue_delayed_work_mask]
    rfl
  refine ⟨?_, ?_, ?_, ?_, ?_, ?_⟩
  · rw [hcalls]
    rfl
  · intro c hc
    fin_cases c
    · exact absurd rfl hc
    · refine ⟨?_, hmask⟩
      rw [hcalls]
      exact List.mem_cons_self _ _
  · simp only [mako_hotplug_late_resume, queue_delayed_work_stats]
  · rw [hcalls]
    rfl
  · unfold mako_hotplug_late_resume queue_delayed_work
    cases h : s.decide_hotplug <;> simp [h]
  · intro h
    unfold mako_hotplug_late_resume queue_delayed_work
    simp [h]

/-- Witness for C9: resuming a suspended governor (no tick pending, cpu 1
offline, counter 15) on a kernel with `HZ = 100`. -/
theorem late_resume_postcondition_witness :
    (mako_hotplug_late_resume platform_hz100 (sample_state 15 5000 false)).2 =
      [Call.cpu_up 1,
        Call.msm_cpufreq_set_freq_limits 0 MSM_CPUFREQ_NO_LIMIT MSM_CPUFREQ_NO_LIMIT,
        Call.queue_delayed_work 100] ∧
    (mako_hotplug_late_resume platform_hz100
        (sample_state 15 5000 false)).1.decide_hotplug = some 100 :=
  ⟨(late_resume_postcondition platform_hz100 (sample_state 15 5000 false)).1,
    (late_resume_postcondition platform_hz100 (sample_state 15 5000 false)).2.2.2.2.2 rfl⟩

/-- C10. Idempotence of the decision: when cpu 1 is already in the target
state (online with `c ≥ 10`, or offline with `c < 10`), `calc_cpu_hotplug c`
makes no call and returns the state as it was, timestamp included; and a
second application with the same counter makes no call, both at the same clock
reading in any state, and at any later or earlier reading `now2` as long as the
recorded timestamp was less than 1200 ms ahead of the first reading. -/
theorem decision_idempotent (now now2 c : Nat) (s : State) :
    ((cpu_online s.cpu_online_mask 1 = true ∧ 10 ≤ c) ∨
        (cpu_is_offline s.cpu_online_mask 1 = true ∧ c < 10) →
      calc_cpu_hotplug now c s = (s, [])) ∧
    (calc_cpu_hotplug now c (calc_cpu_hotplug now c s).1).2 = [] ∧
    (s.stats.timestamp < now + MIN_TIME_CPU_ONLINE_MS →
      (calc_cpu_hotplug now2 c (calc_cpu_hotplug now c s).1).2 = []) := by
  obtain ⟨st, ⟨c0, c1⟩, wq, pending, reg⟩ := s
  refine ⟨?_, ?_, ?_⟩
  · intro h
    rw [calc_cpu_hotplug_eq]
    rcases h with ⟨h1, hc⟩ | ⟨h1, hc⟩
    · have h1' : c1 = true := h1
      subst h1'
      simp [hc]
    · have h1' : c1 = false := by
        simpa [cpu_is_offline, cpu_online_one] using h1
      subst h1'
      have hc' : ¬ 10 ≤ c := by omega
      simp [hc']
  · rw [calc_cpu_hotplug_calls, calc_cpu_hotplug_eq]
    by_cases hc : 10 ≤ c <;>
      by_cases hg : st.timestamp < now + MIN_TIME_CPU_ONLINE_MS <;>
      cases c1 <;> simp [hc, hg, cpu_up, cpu_down]
  · intro hg
    rw [calc_cpu_hotplug_calls, calc_cpu_hotplug_eq]
    have hg' : st.timestamp < now + MIN_TIME_CPU_ONLINE_MS := hg
    by_cases hc : 10 ≤ c <;>
      cases c1 <;> simp [hc, hg', cpu_up, cpu_down]

/-- Witness for C10: with cpu 1 online and a counter of 12 nothing happens, and
after a counter of 3 has taken cpu 1 down at time 5000, asking again at time
6000 makes no call. -/
theorem decision_idempotent_witness :
    calc_cpu_hotplug 5000 12 (sample_state 12 4000 true) = (sample_state 12 4000 true, []) ∧
    (calc_cpu_hotplug 5000 3 (sample_state 3 4000 true)).2 = [Call.cpu_down 1] ∧
    (calc_cpu_hotplug 6000 3 (calc_cpu_hotplug 5000 3 (sample_state 3 4000 true)).1).2 = [] :=
  ⟨(decision_idempotent 5000 6000 12 (sample_state 12 4000 true)).1
      (Or.inl ⟨rfl, by decide⟩),
    by decide,
    (decision_idempotent 5000 6000 3 (sample_state 3 4000 true)).2.2 (by decide)⟩

/-! ## Further facts about the embedding -/

/-- A tick issues `cpu_up(1)` exactly when the counter it computed is at least
10 and cpu 1 is offline. -/
theorem decide_hotplug_func_up_iff (p : Platform) (load : Nat → Nat) (now : Nat)
    (s : State) :
    Call.cpu_up 1 ∈ (decide_hotplug_func p load now s).2 ↔
      10 ≤ (decide_hotplug_loop load s.cpu_online_mask all_cpus s.stats).counter ∧
        s.cpu_online_mask.cpu1 = false := by
  rw [decide_hotplug_func_calls, calc_cpu_hotplug_calls]
  split_ifs with h1 h2 h3 <;> simp_all

/-- The timestamp word after a tick that issued `cpu_up(1)`. -/
theorem decide_hotplug_func_up_timestamp (p : Platform) (load : Nat → Nat) (now : Nat)
    (s : State)
    (hc : 10 ≤ (decide_hotplug_loop load s.cpu_online_mask all_cpus s.stats).counter)
    (h1 : s.cpu_online_mask.cpu1 = false) :
    (decide_hotplug_func p load now s).1.stats.timestamp = now % 2 ^ BITS_PER_LONG ∧
    (decide_hotplug_func p load now s).1.cpu_online_mask.cpu1 = true := by
  simp only [decide_hotplug_func, queue_delayed_work_stats, queue_delayed_work_mask]
  rw [calc_cpu_hotplug_eq, if_pos hc, if_pos h1]
  exact ⟨rfl, rfl⟩

/-- Calls made by a tick, case by case. -/
theorem decide_hotplug_func_calls_cases (p : Platform) (load : Nat → Nat) (now : Nat)
    (s : State) :
    (decide_hotplug_func p load now s).2 =
        [Call.cpu_up 1, Call.queue_delayed_work (p.msecs_to_jiffies (TIMER p))] ∨
    (decide_hotplug_func p load now s).2 =
        [Call.cpu_down 1, Call.queue_delayed_work (p.msecs_to_jiffies (TIMER p))] ∨
    (decide_hotplug_func p load now s).2 =
        [Call.queue_delayed_work (p.msecs_to_jiffies (TIMER p))] := by
  rw [decide_hotplug_func_calls, calc_cpu_hotplug_calls]
  split_ifs <;> simp

/-- A tick leaves the online bit of cpu 0 alone. -/
theorem decide_hotplug_func_cpu0 (p : Platform) (load : Nat → Nat) (now : Nat)
    (s : State) :
    (decide_hotplug_func p load now s).1.cpu_online_mask.cpu0 = s.cpu_online_mask.cpu0 := by
  simp only [decide_hotplug_func, queue_delayed_work_mask]
  rw [calc_cpu_hotplug_eq]
  split_ifs <;> rfl

/-- Calls made by the suspend handler, by the state of cpu 1. -/
theorem mako_hotplug_early_suspend_calls (s : State) :
    (mako_hotplug_early_suspend s).2 =
      [Call.cancel_delayed_work_sync, Call.flush_workqueue] ++
        (if s.cpu_online_mask.cpu1 = true then [Call.cpu_down 1] else []) ++
        [Call.msm_cpufreq_set_freq_limits 0 MSM_CPUFREQ_NO_LIMIT s.stats.suspend_frequency] := by
  obtain ⟨st, ⟨c0, c1⟩, wq, pending, reg⟩ := s
  cases c0 <;> cases c1 <;> rfl

theorem mako_hotplug_early_suspend_cpu0 (s : State) :
    (mako_hotplug_early_suspend s).1.cpu_online_mask.cpu0 = s.cpu_online_mask.cpu0 := by
  obtain ⟨st, ⟨c0, c1⟩, wq, pending, reg⟩ := s
  cases c0 <;> cases c1 <;> rfl

/-- Calls made by the resume handler. -/
theorem mako_hotplug_late_resume_calls (p : Platform) (s : State) :
    (mako_hotplug_late_resume p s).2 =
      [Call.cpu_up 1,
        Call.msm_cpufreq_set_freq_limits 0 MSM_CPUFREQ_NO_LIMIT MSM_CPUFREQ_NO_LIMIT,
        Call.queue_delayed_work p.HZ] := by
  simp only [mako_hotplug_late_resume, queue_delayed_work_calls]
  rfl

/-- State left by the resume handler, apart from the work item. -/
theorem mako_hotplug_late_resume_state (p : Platform) (s : State) :
    (mako_hotplug_late_resume p s).1.stats = { s.stats with counter := 0 } ∧
    (mako_hotplug_late_resume p s).1.cpu_online_mask =
      { cpu0 := s.cpu_online_mask.cpu0, cpu1 := true } := by
  refine ⟨?_, ?_⟩
  · simp only [mako_hotplug_late_resume, queue_delayed_work_stats]
  · simp only [mako_hotplug_late_resume, queue_delayed_work_mask]
    rfl

/-- Calls made by `mako_hotplug_init`, by the outcome of the allocation. -/
theorem mako_hotplug_init_calls (p : Platform) (alloc_ok : Bool) (s : State) :
    (mako_hotplug_init p alloc_ok s).2.2 =
      if alloc_ok = true then
        [Call.alloc_workqueue, Call.queue_delayed_work (p.HZ * 25),
          Call.register_early_suspend]
      else [Call.alloc_workqueue] := by
  cases alloc_ok <;> rfl

/-- The sampling loop applies the loop body to the listed indices, in order. -/
theorem decide_hotplug_loop_indices (load : Nat → Nat) (m : cpumask) (cpus : List cpu_id) :
    ∀ st : cpu_stats,
      decide_hotplug_loop load m cpus st =
        (decide_hotplug_indices m cpus).foldl (update_counter load) st := by
  induction cpus with
  | nil => intro st; rfl
  | cons cpu rest ih =>
    intro st
    unfold decide_hotplug_loop decide_hotplug_indices
    by_cases hon : cpu_online m cpu = true
    · by_cases hz : cpu.val ≠ 0
      · simp only [hon, hz, if_true, ne_eq, not_false_eq_true, List.foldl_cons,
          List.foldl_nil]
      · simp only [hon, hz, if_true, if_false, List.foldl_cons]
        exact ih _
    · simp only [hon, if_false, Bool.false_eq_true]
      exact ih _

/-- Indices used by the sampling loop over both cpus. -/
theorem decide_hotplug_indices_all (m : cpumask) :
    decide_hotplug_indices m all_cpus =
      (if m.cpu0 = true then [0] else []) ++ (if m.cpu1 = true then [1] else []) := by
  obtain ⟨c0, c1⟩ := m
  cases c0 <;> cases c1 <;> rfl

/-- Every tick issues exactly one `queue_delayed_work`, with the delay
`msecs_to_jiffies(TIMER)`. -/
theorem decide_hotplug_func_rearm (p : Platform) (load : Nat → Nat) (now : Nat)
    (s : State) :
    (decide_hotplug_func p load now s).2.filter queue_call =
      [Call.queue_delayed_work (p.msecs_to_jiffies (TIMER p))] := by
  rcases decide_hotplug_func_calls_cases p load now s with h | h | h <;> rw [h] <;> rfl

/-! ## Claims, continued -/

/-- C11, as stated, fails. Resume: with cpu 1 offline and the timestamp 30000
left by an earlier onlining, `mako_hotplug_late_resume` issues `cpu_up(1)`,
cpu 1 is online afterwards, and `stats.timestamp[0]` is still 30000 whatever
the clock reads, say 60000.  Tick: at a clock reading of `2 ^ 32 + 5` ms a tick
that issues `cpu_up(1)` leaves 5 in `stats.timestamp[0]`. -/
theorem timestamp_recording_counterexample :
    cpu_is_offline (sample_state 3 30000 false).cpu_online_mask 1 = true ∧
    Call.cpu_up 1 ∈ (mako_hotplug_late_resume platform_hz100 (sample_state 3 30000 false)).2 ∧
    cpu_online (mako_hotplug_late_resume platform_hz100
        (sample_state 3 30000 false)).1.cpu_online_mask 1 = true ∧
    (mako_hotplug_late_resume platform_hz100
        (sample_state 3 30000 false)).1.stats.timestamp = 30000 ∧
    (mako_hotplug_late_resume platform_hz100
        (sample_state 3 30000 false)).1.stats.timestamp ≠ 60000 ∧
    Call.cpu_up 1 ∈ (decide_hotplug_func platform_hz100 (flat_load 60) 4294967301
        (sample_state 9 30000 false)).2 ∧
    (decide_hotplug_func platform_hz100 (flat_load 60) 4294967301
        (sample_state 9 30000 false)).1.stats.timestamp = 5 := by
  decide

/-- C11, amended. Every tick that issues `cpu_up(1)` found cpu 1 offline,
leaves it online, and leaves in `stats.timestamp[0]` the current time reduced
modulo `2 ^ 32`, which is the current time itself whenever that is below
`2 ^ 32` ms. -/
theorem timestamp_recording (p : Platform) (load : Nat → Nat) (now : Nat) (s : State)
    (hup : Call.cpu_up 1 ∈ (decide_hotplug_func p load now s).2) :
    cpu_is_offline s.cpu_online_mask 1 = true ∧
    cpu_online (decide_hotplug_func p load now s).1.cpu_online_mask 1 = true ∧
    (decide_hotplug_func p load now s).1.stats.timestamp = now % 2 ^ 32 ∧
    (now < 2 ^ 32 → (decide_hotplug_func p load now s).1.stats.timestamp = now) := by
  obtain ⟨hc, h1⟩ := (decide_hotplug_func_up_iff p load now s).1 hup
  obtain ⟨hts, hon⟩ := decide_hotplug_func_up_timestamp p load now s hc h1
  refine ⟨?_, hon, hts, ?_⟩
  · simp [cpu_is_offline, cpu_online_one, h1]
  · intro hnow
    rw [hts]
    exact Nat.mod_eq_of_lt hnow

/-- Witness for the amended C11: the tick at time 31000 that takes the counter
from 9 to 10 with cpu 1 offline records 31000. -/
theorem timestamp_recording_witness :
    (decide_hotplug_func platform_hz100 (flat_load 60) 31000
      (sample_state 9 30000 false)).1.stats.timestamp = 31000 :=
  (timestamp_recording platform_hz100 (flat_load 60) 31000 (sample_state 9 30000 false)
    (by decide)).2.2.2 (by decide)

/-- C12. Core 0 is never managed: in every state, no event of the running
governor (tick, suspend, resume, either setter) and neither outcome of
`mako_hotplug_init` issues `cpu_up(0)` or `cpu_down(0)`, every event leaves the
online bit of cpu 0 as it was, and any `cpu_up(n)` or `cpu_down(n)` issued by a
tick has `n = 1`. -/
theorem core0_never_managed (p : Platform) (s : State) (op : Op) (alloc_ok : Bool)
    (load : Nat → Nat) (now : Nat) :
    (Call.cpu_up 0 ∉ step_calls p s op ∧ Call.cpu_down 0 ∉ step_calls p s op) ∧
    (Call.cpu_up 0 ∉ (mako_hotplug_init p alloc_ok s).2.2 ∧
      Call.cpu_down 0 ∉ (mako_hotplug_init p alloc_ok s).2.2) ∧
    (step p s op).cpu_online_mask.cpu0 = s.cpu_online_mask.cpu0 ∧
    (mako_hotplug_init p alloc_ok s).2.1.cpu_online_mask = s.cpu_online_mask ∧
    (∀ n : Nat, Call.cpu_up n ∈ (decide_hotplug_func p load now s).2 ∨
        Call.cpu_down n ∈ (decide_hotplug_func p load now s).2 → n = 1) := by
  refine ⟨?_, ?_, ?_, ?_, ?_⟩
  · cases op with
    | tick l t =>
      simp only [step_calls]
      rcases decide_hotplug_func_calls_cases p l t { s with decide_hotplug := none }
        with h | h | h <;> rw [h] <;> simp
    | early_suspend =>
      simp only [step_calls, mako_hotplug_early_suspend_calls]
      split_ifs <;> simp
    | late_resume =>
      simp only [step_calls, mako_hotplug_late_resume_calls]
      simp
    | update_first_level v => simp [step_calls]
    | update_suspend_frequency v => simp [step_calls]
  · rw [mako_hotplug_init_calls]
    split_ifs <;> simp
  · cases op with
    | tick l t => exact decide_hotplug_func_cpu0 p l t { s with decide_hotplug := none }
    | early_suspend => exact mako_hotplug_early_suspend_cpu0 s
    | late_resume =>
      simp only [step, (mako_hotplug_late_resume_state p s).2]
    | update_first_level v => rfl
    | update_suspend_frequency v => rfl
  · cases alloc_ok
    · rfl
    · simp only [mako_hotplug_init, queue_delayed_work_mask]
      rfl
  · intro n hn
    rcases decide_hotplug_func_calls_cases p load now s with h | h | h <;>
      rw [h] at hn <;> simp at hn <;> exact hn

/-- Witness for C12: the tick that takes cpu 1 down issues `cpu_down(1)` and
nothing for cpu 0. -/
theorem core0_never_managed_witness :
    Call.cpu_down 0 ∉ step_calls platform_hz100 (sample_state 3 30000 true)
        (Op.tick (flat_load 0) 61000) ∧
    Call.cpu_down 1 ∈ (decide_hotplug_func platform_hz100 (flat_load 0) 61000
        (sample_state 3 30000 true)).2 ∧
    (1 : Nat) = 1 :=
  ⟨(core0_never_managed platform_hz100 (sample_state 3 30000 true)
      (Op.tick (flat_load 0) 61000) true (flat_load 0) 61000).1.2,
    by decide,
    (core0_never_managed platform_hz100 (sample_state 3 30000 true)
      (Op.tick (flat_load 0) 61000) true (flat_load 0) 61000).2.2.2.2 1
      (Or.inr (by decide))⟩

/-- C13, the code at the failing input. Every tick issues exactly one
`queue_delayed_work`, and the delay it passes is `msecs_to_jiffies(HZ)`, that
is `HZ` milliseconds.  On a kernel with `HZ = 100` a tick re-arms itself with
10 jiffies (100 ms), whether or not it issued a hotplug call, not with the 100
jiffies of one second that the resume handler passes. -/
theorem tick_cadence_failing_input (p : Platform) (load : Nat → Nat) (now : Nat)
    (s : State) :
    (decide_hotplug_func p load now s).2.filter queue_call =
      [Call.queue_delayed_work (p.msecs_to_jiffies p.HZ)] ∧
    (decide_hotplug_func (kernel_platform 100) (flat_load 0) 61000
        (sample_state 3 30000 false)).2 = [Call.queue_delayed_work 10] ∧
    (decide_hotplug_func (kernel_platform 100) (flat_load 60) 61000
        (sample_state 9 30000 false)).2 = [Call.cpu_up 1, Call.queue_delayed_work 10] ∧
    (10 : Nat) ≠ (kernel_platform 100).HZ ∧
    (mako_hotplug_late_resume (kernel_platform 100) (sample_state 3 30000 false)).2.filter
        queue_call = [Call.queue_delayed_work 100] ∧
    msecs_to_jiffies 1000 1000 = 1000 := by
  refine ⟨decide_hotplug_func_rearm p load now s, ?_, ?_, ?_, ?_, ?_⟩ <;> decide

/-- C14. Tunable round trip: for every value `v`, none rejected or clamped,
`get_first_level` after `update_first_level v` returns `v`, and
`get_suspend_frequency` after `update_suspend_frequency v` returns `v`. -/
theorem tunable_round_trip (v : Nat) (s : State) :
    get_first_level (update_first_level v s) = v ∧
    get_suspend_frequency (update_suspend_frequency v s) = v :=
  ⟨rfl, rfl⟩

/-- C15. Start-up state: when the workqueue allocation succeeds,
`mako_hotplug_init` returns 0 and leaves the threshold at 55, the suspend
frequency at 540000, `stats.counter[0]` at 0, the early-suspend handler
registered, and the work item queued once, with a delay of `25 * HZ` jiffies. -/
theorem startup_state (p : Platform) (s : State) :
    (mako_hotplug_init p true s).1 = 0 ∧
    (mako_hotplug_init p true s).2.1.stats.default_first_level = 55 ∧
    (mako_hotplug_init p true s).2.1.stats.suspend_frequency = 540000 ∧
    (mako_hotplug_init p true s).2.1.stats.counter = 0 ∧
    (mako_hotplug_init p true s).2.1.suspend_registered = true ∧
    (mako_hotplug_init p true s).2.1.decide_hotplug = some (25 * p.HZ) ∧
    (mako_hotplug_init p true s).2.2 =
      [Call.alloc_workqueue, Call.queue_delayed_work (25 * p.HZ),
        Call.register_early_suspend] ∧
    (mako_hotplug_init p true s).2.2.filter queue_call =
      [Call.queue_delayed_work (25 * p.HZ)] := by
  have hcalls := mako_hotplug_init_calls p true s
  rw [if_pos rfl, Nat.mul_comm] at hcalls
  refine ⟨rfl, rfl, rfl, rfl, rfl, ?_, hcalls, ?_⟩
  · show some (p.HZ * 25) = some (25 * p.HZ)
    rw [Nat.mul_comm]
  · rw [hcalls]
    rfl

/-- C16. Start-up failure: `mako_hotplug_init` returns `-ENOMEM` exactly when
the workqueue allocation fails; in that case its only call is the allocation
itself, so no `queue_delayed_work` and no `register_early_suspend` is issued,
and the work item and the registration are left as they were. -/
theorem startup_failure (p : Platform) (alloc_ok : Bool) (s : State) :
    ((mako_hotplug_init p alloc_ok s).1 = -ENOMEM ↔ alloc_ok = false) ∧
    (mako_hotplug_init p false s).1 = -ENOMEM ∧
    (mako_hotplug_init p false s).2.2 = [Call.alloc_workqueue] ∧
    (mako_hotplug_init p false s).2.2.filter queue_call = [] ∧
    Call.register_early_suspend ∉ (mako_hotplug_init p false s).2.2 ∧
    (mako_hotplug_init p false s).2.1.decide_hotplug = s.decide_hotplug ∧
    (mako_hotplug_init p false s).2.1.suspend_registered = s.suspend_registered ∧
    (mako_hotplug_init p false s).2.1.wq = false := by
  have hcalls : (mako_hotplug_init p false s).2.2 = [Call.alloc_workqueue] := rfl
  refine ⟨?_, rfl, rfl, rfl, by rw [hcalls]; decide, rfl, rfl, rfl⟩
  cases alloc_ok
  · exact ⟨fun _ => rfl, fun _ => rfl⟩
  · constructor
    · intro h
      have h0 : (mako_hotplug_init p true s).1 = 0 := rfl
      rw [h0] at h
      exact absurd h (by decide)
    · intro h
      exact absurd h (by decide)

/-- C17. The literal residency comparison is vacuous: whenever the recorded
timestamp is not later than the current time, `now + MIN_TIME_CPU_ONLINE_MS`
exceeds it, so with cpu 1 online and a counter below 10 `calc_cpu_hotplug`
issues `cpu_down(1)` and cpu 1 goes offline, however recent the timestamp. -/
theorem residency_guard_vacuous (now c : Nat) (s : State)
    (hts : s.stats.timestamp ≤ now) (hc : c < 10)
    (h1 : cpu_online s.cpu_online_mask 1 = true) :
    now + MIN_TIME_CPU_ONLINE_MS > s.stats.timestamp ∧
    (calc_cpu_hotplug now c s).2 = [Call.cpu_down 1] ∧
    cpu_online (calc_cpu_hotplug now c s).1.cpu_online_mask 1 = false := by
  have hm : 0 < MIN_TIME_CPU_ONLINE_MS := by decide
  have hg : s.stats.timestamp < now + MIN_TIME_CPU_ONLINE_MS := by omega
  have h1' : s.cpu_online_mask.cpu1 = true := h1
  refine ⟨hg, ?_, ?_⟩
  · rw [calc_cpu_hotplug_calls, if_neg (by omega), if_pos ⟨h1', hg⟩]
  · rw [calc_cpu_hotplug_eq, if_neg (by omega), if_pos ⟨h1', hg⟩]
    rfl

/-- Witness for C17: a core brought online at time 5000 and asked about at the
same instant with a counter of 9 is taken down. -/
theorem residency_guard_vacuous_witness :
    (calc_cpu_hotplug 5000 9 (sample_state 9 5000 true)).2 = [Call.cpu_down 1] :=
  (residency_guard_vacuous 5000 9 (sample_state 9 5000 true) (by decide) (by decide)
    rfl).2.1

/-- C18. Setters trigger no re-evaluation: `update_first_level v` changes only
`default_first_level` and `update_suspend_frequency v` only
`suspend_frequency`; the other tunable, `counter[0]`, `timestamp[0]`, the
unused `cores_on_touch`, the online mask, the workqueue, the pending work item
and the registration are unchanged, and as events they make no call at all. -/
theorem setters_frame (p : Platform) (s : State) (v : Nat) :
    ((update_first_level v s).stats.default_first_level = v ∧
      (update_first_level v s).stats.suspend_frequency = s.stats.suspend_frequency ∧
      (update_first_level v s).stats.cores_on_touch = s.stats.cores_on_touch ∧
      (update_first_level v s).stats.counter = s.stats.counter ∧
      (update_first_level v s).stats.timestamp = s.stats.timestamp ∧
      (update_first_level v s).cpu_online_mask = s.cpu_online_mask ∧
      (update_first_level v s).wq = s.wq ∧
      (update_first_level v s).decide_hotplug = s.decide_hotplug ∧
      (update_first_level v s).suspend_registered = s.suspend_registered) ∧
    ((update_suspend_frequency v s).stats.suspend_frequency = v ∧
      (update_suspend_frequency v s).stats.default_first_level
        = s.stats.default_first_level ∧
      (update_suspend_frequency v s).stats.cores_on_touch = s.stats.cores_on_touch ∧
      (update_suspend_frequency v s).stats.counter = s.stats.counter ∧
      (update_suspend_frequency v s).stats.timestamp = s.stats.timestamp ∧
      (update_suspend_frequency v s).cpu_online_mask = s.cpu_online_mask ∧
      (update_suspend_frequency v s).wq = s.wq ∧
      (update_suspend_frequency v s).decide_hotplug = s.decide_hotplug ∧
      (update_suspend_frequency v s).suspend_registered = s.suspend_registered) ∧
    step p s (Op.update_first_level v) = update_first_level v s ∧
    step p s (Op.update_suspend_frequency v) = update_suspend_frequency v s ∧
    step_calls p s (Op.update_first_level v) = [] ∧
    step_calls p s (Op.update_suspend_frequency v) = [] :=
  ⟨⟨rfl, rfl, rfl, rfl, rfl, rfl, rfl, rfl, rfl⟩,
    ⟨rfl, rfl, rfl, rfl, rfl, rfl, rfl, rfl, rfl⟩, rfl, rfl, rfl, rfl⟩

/-- C19, the code at the failing input. The sampling loop applies its body to
the indices listed by `decide_hotplug_indices`; index 1 is among them exactly
when cpu 1 is online, and 1 is not below the declared length 1 of
`stats.counter`.  With cpus 0 and 1 online the indices are 0 and 1, and the
access through `counter[1]` moves the word of `timestamp[0]` from 30000 to
29999; with cpu 0 alone the only index is 0. -/
theorem counter_index_failing_input (load : Nat → Nat) (m : cpumask) (st : cpu_stats) :
    decide_hotplug_loop load m all_cpus st =
      (decide_hotplug_indices m all_cpus).foldl (update_counter load) st ∧
    ((1 : cpu_id) ∈ decide_hotplug_indices m all_cpus ↔ m.cpu1 = true) ∧
    ¬ ((1 : cpu_id).val < COUNTER_SIZE) ∧
    decide_hotplug_indices { cpu0 := true, cpu1 := true } all_cpus = [0, 1] ∧
    decide_hotplug_indices { cpu0 := true, cpu1 := false } all_cpus = [0] ∧
    (decide_hotplug_loop (flat_load 0) (sample_state 3 30000 true).cpu_online_mask all_cpus
        (sample_state 3 30000 true).stats).timestamp = 29999 := by
  refine ⟨decide_hotplug_loop_indices load m all_cpus st, ?_, by decide, rfl, rfl,
    by decide⟩
  rw [decide_hotplug_indices_all]
  obtain ⟨c0, c1⟩ := m
  cases c0 <;> cases c1 <;> simp

/-- C20. First tick after resume: in any prior state whose timestamp is not
later than the clock reading of the tick, for every load and threshold, the
first tick after `mako_hotplug_late_resume` hands a counter of at most 1 to
the decision and issues `cpu_down(1)` before re-arming. -/
theorem first_tick_after_resume (p : Platform) (load : Nat → Nat) (now : Nat) (s : State)
    (hts : s.stats.timestamp ≤ now) :
    (decide_hotplug_loop load (mako_hotplug_late_resume p s).1.cpu_online_mask all_cpus
        (mako_hotplug_late_resume p s).1.stats).counter ≤ 1 ∧
    (decide_hotplug_func p load now
        { (mako_hotplug_late_resume p s).1 with decide_hotplug := none }).2 =
      [Call.cpu_down 1, Call.queue_delayed_work (p.msecs_to_jiffies (TIMER p))] := by
  obtain ⟨hst, hmask⟩ := mako_hotplug_late_resume_state p s
  have hcnt : (decide_hotplug_loop load (mako_hotplug_late_resume p s).1.cpu_online_mask
      all_cpus (mako_hotplug_late_resume p s).1.stats).counter ≤ 1 := by
    rw [decide_hotplug_loop_counter, hst]
    split_ifs
    · exact counter_step_le_succ _ _ 0
    · exact Nat.zero_le 1
  have htsle := decide_hotplug_loop_timestamp_le_max load
    (mako_hotplug_late_resume p s).1.cpu_online_mask (mako_hotplug_late_resume p s).1.stats
  rw [hst] at htsle
  have hmax : max s.stats.timestamp HIGH_LOAD_COUNTER < now + MIN_TIME_CPU_ONLINE_MS := by
    unfold HIGH_LOAD_COUNTER MIN_TIME_CPU_ONLINE_MS
    omega
  have hg : (decide_hotplug_loop load (mako_hotplug_late_resume p s).1.cpu_online_mask
      all_cpus { s.stats with counter := 0 }).timestamp < now + MIN_TIME_CPU_ONLINE_MS :=
    lt_of_le_of_lt htsle hmax
  have h1 : (mako_hotplug_late_resume p s).1.cpu_online_mask.cpu1 = true := by
    rw [hmask]
  refine ⟨hcnt, ?_⟩
  rw [decide_hotplug_func_calls, calc_cpu_hotplug_calls]
  simp only []
  rw [if_neg (by omega), if_pos ⟨h1, by rw [hst]; exact hg⟩]
  rfl

/-- Witness for C20: resume after a suspend with the timestamp 30000 of an
earlier onlining, then a fully loaded tick at time 61000. -/
theorem first_tick_after_resume_witness :
    (decide_hotplug_func platform_hz100 (flat_load 100) 61000
        { (mako_hotplug_late_resume platform_hz100 (sample_state 3 30000 false)).1 with
          decide_hotplug := none }).2 =
      [Call.cpu_down 1, Call.queue_delayed_work 10] :=
  (first_tick_after_resume platform_hz100 (flat_load 100) 61000
    (sample_state 3 30000 false) (by decide)).2

end MakoHotplug
